import Mathlib

/-!
Shallow embedding of the per-frame simulation of the ESP space-shooter
(`src/app.rs`, `src/state.rs`).  Machine `u32` arithmetic is modelled as
`Nat` with an explicit `% 4294967296` wherever the source uses wrapping
operations; `i32` coordinates are modelled as `Int`; timestamps
(`Instant`) are modelled as natural numbers of milliseconds, with
`elapsed = now - earlier` (truncated subtraction, matching the monotonic
clock).  `heapless::Vec<_, N>` becomes a `List` together with a
capacity-checked push, and `Vec::swap_remove` becomes `swapRemove`.
-/

namespace SpaceShooter

/-- 2^32, the modulus of wrapping `u32` arithmetic. -/
def U32MOD : Nat := 4294967296

/-- An asteroid (`struct Asteroid` in `app.rs`): position, radius, shape seed. -/
structure Asteroid where
  x : Int
  y : Int
  radius : Nat
  seed : Nat
deriving DecidableEq, Repr

/-- Button sampling result (`struct State` in `state.rs`). -/
structure InputState where
  button_left : Bool
  button_right : Bool
deriving DecidableEq, Repr

/-- The mutable application state of `struct App` (display handle omitted;
durations and instants in milliseconds). -/
structure App where
  triangle_x : Int
  triangle_y : Int
  sleep_timeout : Nat
  last_input_time : Nat
  is_sleeping : Bool
  bullets : List (Int × Int)
  bullet_cooldown : Nat
  asteroids : List Asteroid
  asteroid_cooldown : Nat
  frame_count : Nat
  score : Nat
  high_score : Nat
  both_buttons_held_start : Option Nat
deriving DecidableEq, Repr

/-- `heapless::Vec::push` with capacity `cap`: the element is appended when
there is room, otherwise the push fails and the vector is unchanged
(`let _ = ...push(...)` discards the error). -/
def pushCap (cap : Nat) (xs : List α) (a : α) : List α :=
  if xs.length < cap then xs ++ [a] else xs

/-- `Vec::swap_remove i`: overwrite position `i` with the last element and
drop the last element. -/
def swapRemove (xs : List α) (i : Nat) : List α :=
  match xs.getLast? with
  | none => xs
  | some a => (xs.set i a).dropLast

/-- The `while` loop at `app.rs:195-205`: every bullet moves up by 4 and
bullets with `y < -5` are swap-removed.  `fuel` bounds the iteration count;
each iteration strictly decreases `bs.length - i`, so `fuel = bs.length - i`
is exact. -/
def moveBulletsGo : Nat → Nat → List (Int × Int) → List (Int × Int)
  | 0, _, bs => bs
  | fuel + 1, i, bs =>
    if h : i < bs.length then
      if (bs.get ⟨i, h⟩).2 - 4 < -5 then
        moveBulletsGo fuel i (swapRemove (bs.set i ((bs.get ⟨i, h⟩).1, (bs.get ⟨i, h⟩).2 - 4)) i)
      else
        moveBulletsGo fuel (i + 1) (bs.set i ((bs.get ⟨i, h⟩).1, (bs.get ⟨i, h⟩).2 - 4))
    else bs

/-- Bullet motion/lifecycle pass over the whole pool. -/
def moveBullets (bs : List (Int × Int)) : List (Int × Int) :=
  moveBulletsGo bs.length 0 bs

/-- The `while` loop at `app.rs:219-229`: every asteroid moves down by 1 and
asteroids with `y > 70` are swap-removed. -/
def moveAsteroidsGo : Nat → Nat → List Asteroid → List Asteroid
  | 0, _, asts => asts
  | fuel + 1, i, asts =>
    if h : i < asts.length then
      if 70 < (asts.get ⟨i, h⟩).y + 1 then
        moveAsteroidsGo fuel i
          (swapRemove (asts.set i { asts.get ⟨i, h⟩ with y := (asts.get ⟨i, h⟩).y + 1 }) i)
      else
        moveAsteroidsGo fuel (i + 1)
          (asts.set i { asts.get ⟨i, h⟩ with y := (asts.get ⟨i, h⟩).y + 1 })
    else asts

/-- Asteroid motion/lifecycle pass over the whole pool. -/
def moveAsteroids (asts : List Asteroid) : List Asteroid :=
  moveAsteroidsGo asts.length 0 asts

/-- The inner scan of the bullet-asteroid collision loop (`app.rs:238-264`
up to the `break`): return the index of the first asteroid whose squared
distance to the bullet `(bx, by)` is below `(radius + 2)^2`. -/
def findHitGo (bx b_y : Int) (asts : List Asteroid) : Nat → Nat → Option Nat
  | 0, _ => none
  | fuel + 1, j =>
    if h : j < asts.length then
      if (bx - (asts.get ⟨j, h⟩).x) * (bx - (asts.get ⟨j, h⟩).x)
          + (b_y - (asts.get ⟨j, h⟩).y) * (b_y - (asts.get ⟨j, h⟩).y)
          < (((asts.get ⟨j, h⟩).radius : Int) + 2) * (((asts.get ⟨j, h⟩).radius : Int) + 2) then
        some j
      else
        findHitGo bx b_y asts fuel (j + 1)
    else none

/-- First asteroid hit by the bullet at `(bx, by)`, if any. -/
def findHitAsteroid (bx b_y : Int) (asts : List Asteroid) : Option Nat :=
  findHitGo bx b_y asts asts.length 0

/-- State threaded through the bullet-asteroid collision loop: the two pools,
the scores, and the sequence of values passed to `storage::save_high_score`. -/
structure CollideState where
  bullets : List (Int × Int)
  asteroids : List Asteroid
  score : Nat
  high_score : Nat
  saves : List Nat
deriving DecidableEq, Repr

/-- The outer bullet-asteroid collision loop (`app.rs:232-271`): for each
bullet, scan the asteroids; on the first hit remove the asteroid, bump the
score, update/persist the high score, remove the bullet, and continue with
the same index (which now holds a different bullet). -/
def bulletCollisionsGo : Nat → Nat → CollideState → CollideState
  | 0, _, cs => cs
  | fuel + 1, bi, cs =>
    if h : bi < cs.bullets.length then
      match findHitAsteroid (cs.bullets.get ⟨bi, h⟩).1 (cs.bullets.get ⟨bi, h⟩).2 cs.asteroids with
      | some j =>
        bulletCollisionsGo fuel bi
          { bullets := swapRemove cs.bullets bi
            asteroids := swapRemove cs.asteroids j
            score := cs.score + 1
            high_score := if cs.high_score < cs.score + 1 then cs.score + 1 else cs.high_score
            saves :=
              if cs.high_score < cs.score + 1 then cs.saves ++ [cs.score + 1] else cs.saves }
      | none => bulletCollisionsGo fuel (bi + 1) cs
    else cs

/-- Bullet-asteroid collision pass over the whole bullet pool. -/
def bulletCollisions (cs : CollideState) : CollideState :=
  bulletCollisionsGo cs.bullets.length 0 cs

/-- The asteroid-triangle collision loop (`app.rs:274-291`): every asteroid
whose squared distance to the triangle is below `(radius + 4)^2` is
swap-removed and the score is reset to 0. -/
def asteroidPlayerGo (tx ty : Int) : Nat → Nat → List Asteroid → Nat → List Asteroid × Nat
  | 0, _, asts, score => (asts, score)
  | fuel + 1, i, asts, score =>
    if h : i < asts.length then
      if ((asts.get ⟨i, h⟩).x - tx) * ((asts.get ⟨i, h⟩).x - tx)
          + ((asts.get ⟨i, h⟩).y - ty) * ((asts.get ⟨i, h⟩).y - ty)
          < (((asts.get ⟨i, h⟩).radius : Int) + 4) * (((asts.get ⟨i, h⟩).radius : Int) + 4) then
        asteroidPlayerGo tx ty fuel i (swapRemove asts i) 0
      else
        asteroidPlayerGo tx ty fuel (i + 1) asts score
    else (asts, score)

/-- Asteroid-triangle collision pass over the whole asteroid pool. -/
def asteroidPlayer (tx ty : Int) (asts : List Asteroid) (score : Nat) :
    List Asteroid × Nat :=
  asteroidPlayerGo tx ty asts.length 0 asts score

/-- Asteroid spawned at frame counter `fc` (`app.rs:210-214`), all `u32`
arithmetic wrapping. -/
def spawnAsteroid (fc : Nat) : Asteroid :=
  { x := Int.ofNat ((fc * 17 + 13) % U32MOD % 108) + 10
    y := -10
    radius := (fc * 7) % U32MOD % 3 + 3
    seed := (fc * 1103515245 + 12345) % U32MOD }

/-- The active portion of `App::main_loop` (`app.rs:170-296`): frame-counter
increment, triangle movement, input-time refresh, bullet and asteroid
spawning and motion, and the two collision passes.  Returns the new state
and the list of high-score values passed to `storage::save_high_score`. -/
def activeTick (st : App) (input : InputState) (now : Nat) : App × List Nat :=
  let has_input := input.button_left || input.button_right
  let both := input.button_left && input.button_right
  let fc := (st.frame_count + 1) % U32MOD
  let tx1 := if input.button_left && !both then max (st.triangle_x - 3) 8 else st.triangle_x
  let tx := if input.button_right && !both then min (tx1 + 3) 120 else tx1
  let lit := if has_input then now else st.last_input_time
  let bspawn :=
    if 0 < st.bullet_cooldown then (st.bullets, st.bullet_cooldown - 1)
    else (pushCap 16 st.bullets (tx, st.triangle_y - 4), 10)
  let bullets2 := moveBullets bspawn.1
  let aspawn :=
    if 0 < st.asteroid_cooldown then (st.asteroids, st.asteroid_cooldown - 1)
    else (pushCap 8 st.asteroids (spawnAsteroid fc), 40)
  let asts2 := moveAsteroids aspawn.1
  let cs := bulletCollisions
    { bullets := bullets2, asteroids := asts2, score := st.score,
      high_score := st.high_score, saves := [] }
  let ap := asteroidPlayer tx st.triangle_y cs.asteroids cs.score
  ({ st with
      triangle_x := tx
      last_input_time := lit
      bullets := cs.bullets
      bullet_cooldown := bspawn.2
      asteroids := ap.1
      asteroid_cooldown := aspawn.2
      frame_count := fc
      score := ap.2
      high_score := cs.high_score }, cs.saves)

/-- One invocation of `App::main_loop` (`app.rs:113-296`).  `now` is the
current instant in milliseconds.  Returns the new state and the list of
values passed to `storage::save_high_score` during the tick. -/
def main_loop (st : App) (input : InputState) (now : Nat) : App × List Nat :=
  let has_input := input.button_left || input.button_right
  let elapsed := now - st.last_input_time
  if st.is_sleeping && has_input then
    ({ st with is_sleeping := false, last_input_time := now }, [])
  else if !st.is_sleeping && decide (0 < st.sleep_timeout) && decide (st.sleep_timeout < elapsed) then
    ({ st with is_sleeping := true }, [])
  else if st.is_sleeping then
    (st, [])
  else if input.button_left && input.button_right then
    let start := st.both_buttons_held_start.getD now
    if 15000 ≤ now - start then
      ({ st with high_score := 0, both_buttons_held_start := none }, [0])
    else
      activeTick { st with both_buttons_held_start := some start } input now
  else
    activeTick { st with both_buttons_held_start := none } input now

/-- The application state assembled by `App::setup` (`app.rs:79-96`):
`sleep_timeout_secs` seconds of idle timeout, setup instant `t0`, and the
high score loaded from flash. -/
def initApp (sleep_timeout_secs : Nat) (t0 : Nat) (saved_high : Nat) : App :=
  { triangle_x := 64
    triangle_y := 58
    sleep_timeout := sleep_timeout_secs * 1000
    last_input_time := t0
    is_sleeping := false
    bullets := []
    bullet_cooldown := 0
    asteroids := []
    asteroid_cooldown := 30
    frame_count := 0
    score := 0
    high_score := saved_high
    both_buttons_held_start := none }

/-- States reachable from some setup state by repeated `main_loop` ticks. -/
inductive Reachable : App → Prop
  | init (timeout t0 hs : Nat) : Reachable (initApp timeout t0 hs)
  | step (st : App) (input : InputState) (now : Nat) :
      Reachable st → Reachable (main_loop st input now).1

/-- The input sample with no button pressed. -/
def noInput : InputState := ⟨false, false⟩

/-- `n` ticks of `main_loop` with no input, all at instant 0. -/
def runIdleTicks (st : App) : Nat → App
  | 0 => st
  | n + 1 => (main_loop (runIdleTicks st n) noInput 0).1

/-! ### Length lemmas for the pool operations -/

theorem swapRemove_length_le (xs : List α) (i : Nat) :
    (swapRemove xs i).length ≤ xs.length := by
  unfold swapRemove
  cases h : xs.getLast? with
  | none => exact le_refl _
  | some a =>
    simp only [List.length_dropLast, List.length_set]
    omega

theorem pushCap_length_le (cap : Nat) (xs : List α) (a : α) (h : xs.length ≤ cap) :
    (pushCap cap xs a).length ≤ cap := by
  unfold pushCap
  split
  · simp only [List.length_append, List.length_cons, List.length_nil]
    omega
  · exact h

theorem pushCap_full (cap : Nat) (xs : List α) (a : α) (h : xs.length = cap) :
    pushCap cap xs a = xs := by
  unfold pushCap
  split
  · omega
  · rfl

theorem moveBulletsGo_length_le :
    ∀ (fuel i : Nat) (bs : List (Int × Int)),
      (moveBulletsGo fuel i bs).length ≤ bs.length := by
  intro fuel
  induction fuel with
  | zero => intro i bs; exact le_refl _
  | succ n ih =>
    intro i bs
    simp only [moveBulletsGo]
    split
    · split
      · refine le_trans (ih _ _) (le_trans (swapRemove_length_le _ _) ?_)
        simp [List.length_set]
      · refine le_trans (ih _ _) ?_
        simp [List.length_set]
    · exact le_refl _

theorem moveAsteroidsGo_length_le :
    ∀ (fuel i : Nat) (asts : List Asteroid),
      (moveAsteroidsGo fuel i asts).length ≤ asts.length := by
  intro fuel
  induction fuel with
  | zero => intro i asts; exact le_refl _
  | succ n ih =>
    intro i asts
    simp only [moveAsteroidsGo]
    split
    · split
      · refine le_trans (ih _ _) (le_trans (swapRemove_length_le _ _) ?_)
        simp [List.length_set]
      · refine le_trans (ih _ _) ?_
        simp [List.length_set]
    · exact le_refl _

theorem bulletCollisionsGo_length_le :
    ∀ (fuel bi : Nat) (cs : CollideState),
      (bulletCollisionsGo fuel bi cs).bullets.length ≤ cs.bullets.length ∧
      (bulletCollisionsGo fuel bi cs).asteroids.length ≤ cs.asteroids.length := by
  intro fuel
  induction fuel with
  | zero => intro bi cs; exact ⟨le_refl _, le_refl _⟩
  | succ n ih =>
    intro bi cs
    simp only [bulletCollisionsGo]
    split
    · split
      · constructor
        · exact le_trans (ih _ _).1 (swapRemove_length_le _ _)
        · exact le_trans (ih _ _).2 (swapRemove_length_le _ _)
      · exact ih _ _
    · exact ⟨le_refl _, le_refl _⟩

theorem asteroidPlayerGo_length_le :
    ∀ (fuel : Nat) (tx ty : Int) (i : Nat) (asts : List Asteroid) (score : Nat),
      (asteroidPlayerGo tx ty fuel i asts score).1.length ≤ asts.length := by
  intro fuel
  induction fuel with
  | zero => intro tx ty i asts score; exact le_refl _
  | succ n ih =>
    intro tx ty i asts score
    simp only [asteroidPlayerGo]
    split
    · split
      · exact le_trans (ih _ _ _ _ _) (swapRemove_length_le _ _)
      · exact ih _ _ _ _ _
    · exact le_refl _

theorem activeTick_bullets_le (st : App) (input : InputState) (now : Nat)
    (hb : st.bullets.length ≤ 16) :
    (activeTick st input now).1.bullets.length ≤ 16 := by
  simp only [activeTick]
  refine le_trans (bulletCollisionsGo_length_le _ _ _).1 ?_
  refine le_trans (moveBulletsGo_length_le _ _ _) ?_
  split
  · exact hb
  · exact pushCap_length_le _ _ _ hb

theorem activeTick_asteroids_le (st : App) (input : InputState) (now : Nat)
    (ha : st.asteroids.length ≤ 8) :
    (activeTick st input now).1.asteroids.length ≤ 8 := by
  simp only [activeTick]
  refine le_trans (asteroidPlayerGo_length_le _ _ _ _ _ _) ?_
  refine le_trans (bulletCollisionsGo_length_le _ _ _).2 ?_
  refine le_trans (moveAsteroidsGo_length_le _ _ _) ?_
  split
  · exact ha
  · exact pushCap_length_le _ _ _ ha

theorem main_loop_pools (st : App) (input : InputState) (now : Nat)
    (hb : st.bullets.length ≤ 16) (ha : st.asteroids.length ≤ 8) :
    (main_loop st input now).1.bullets.length ≤ 16 ∧
    (main_loop st input now).1.asteroids.length ≤ 8 := by
  simp only [main_loop]
  split
  · exact ⟨hb, ha⟩
  · split
    · exact ⟨hb, ha⟩
    · split
      · exact ⟨hb, ha⟩
      · split
        · split
          · exact ⟨hb, ha⟩
          · exact ⟨activeTick_bullets_le _ _ _ hb, activeTick_asteroids_le _ _ _ ha⟩
        · exact ⟨activeTick_bullets_le _ _ _ hb, activeTick_asteroids_le _ _ _ ha⟩

/-! ### Score / high score / save characterization of the collision loop -/

theorem bulletCollisionsGo_score_high :
    ∀ (fuel bi : Nat) (cs : CollideState),
      cs.score ≤ (bulletCollisionsGo fuel bi cs).score ∧
      (bulletCollisionsGo fuel bi cs).high_score =
        (if (bulletCollisionsGo fuel bi cs).score ≤ max cs.high_score cs.score
          then cs.high_score else (bulletCollisionsGo fuel bi cs).score) ∧
      (bulletCollisionsGo fuel bi cs).saves =
        cs.saves ++ List.range' (max cs.high_score cs.score + 1)
          ((bulletCollisionsGo fuel bi cs).score - max cs.high_score cs.score) := by
  intro fuel
  induction fuel with
  | zero =>
    intro bi cs
    simp only [bulletCollisionsGo]
    refine ⟨le_refl _, ?_, ?_⟩
    · rw [if_pos (le_max_right _ _)]
    · rw [Nat.sub_eq_zero_of_le (le_max_right _ _), List.range'_zero, List.append_nil]
  | succ n ih =>
    intro bi cs
    simp only [bulletCollisionsGo]
    split
    · split
      case h_1 j heq =>
        by_cases hA : cs.high_score < cs.score + 1
        · simp only [if_pos hA]
          obtain ⟨ih1, ih2, ih3⟩ := ih bi
            ⟨swapRemove cs.bullets bi, swapRemove cs.asteroids j,
              cs.score + 1, cs.score + 1, cs.saves ++ [cs.score + 1]⟩
          dsimp only at ih1 ih2 ih3
          rw [Nat.max_self] at ih2 ih3
          have hM : max cs.high_score cs.score = cs.score := by omega
          rw [hM]
          refine ⟨by omega, ?_, ?_⟩
          · rw [ih2]
            split <;> split <;> omega
          · rw [ih3]
            have hsub : (bulletCollisionsGo n bi
                ⟨swapRemove cs.bullets bi, swapRemove cs.asteroids j,
                  cs.score + 1, cs.score + 1, cs.saves ++ [cs.score + 1]⟩).score - cs.score
                = ((bulletCollisionsGo n bi
                ⟨swapRemove cs.bullets bi, swapRemove cs.asteroids j,
                  cs.score + 1, cs.score + 1, cs.saves ++ [cs.score + 1]⟩).score
                    - (cs.score + 1)) + 1 := by omega
            rw [hsub, List.range'_succ, List.append_assoc, List.singleton_append]
        · simp only [if_neg hA]
          obtain ⟨ih1, ih2, ih3⟩ := ih bi
            ⟨swapRemove cs.bullets bi, swapRemove cs.asteroids j,
              cs.score + 1, cs.high_score, cs.saves⟩
          dsimp only at ih1 ih2 ih3
          have hM : max cs.high_score cs.score = cs.high_score := by omega
          have hM2 : max cs.high_score (cs.score + 1) = cs.high_score := by omega
          rw [hM2] at ih2 ih3
          rw [hM]
          exact ⟨by omega, ih2, ih3⟩
      case h_2 => exact ih _ _
    · refine ⟨le_refl _, ?_, ?_⟩
      · rw [if_pos (le_max_right _ _)]
      · rw [Nat.sub_eq_zero_of_le (le_max_right _ _), List.range'_zero, List.append_nil]

theorem swapRemove_length (xs : List α) (i : Nat) (h : xs ≠ []) :
    (swapRemove xs i).length = xs.length - 1 := by
  unfold swapRemove
  cases hL : xs.getLast? with
  | none => exact absurd (List.getLast?_eq_none_iff.mp hL) h
  | some a => simp only [List.length_dropLast, List.length_set]

/-! ### Score characterization of the asteroid-player collision loop -/

theorem asteroidPlayerGo_score :
    ∀ (fuel : Nat) (tx ty : Int) (i : Nat) (asts : List Asteroid) (score : Nat),
      asts.length - i ≤ fuel →
      (asteroidPlayerGo tx ty fuel i asts score).2 =
        (if (asts.drop i).any (fun a =>
              decide ((a.x - tx) * (a.x - tx) + (a.y - ty) * (a.y - ty)
                < ((a.radius : Int) + 4) * ((a.radius : Int) + 4)))
          then 0 else score) := by
  intro fuel
  induction fuel with
  | zero =>
    intro tx ty i asts score hfuel
    simp only [asteroidPlayerGo]
    rw [List.drop_eq_nil_of_le (by omega)]
    simp
  | succ n ih =>
    intro tx ty i asts score hfuel
    simp only [asteroidPlayerGo]
    split
    case isTrue h =>
      rw [List.drop_eq_getElem_cons h, List.any_cons]
      split
      case isTrue hhit =>
        have hne : asts ≠ [] := by
          intro hnil; rw [hnil] at h; simp at h
        rw [ih tx ty i (swapRemove asts i) 0 (by rw [swapRemove_length _ _ hne]; omega)]
        rw [ite_self]
        have : (fun a => decide ((a.x - tx) * (a.x - tx) + (a.y - ty) * (a.y - ty)
            < ((a.radius : Int) + 4) * ((a.radius : Int) + 4))) asts[i] = true := by
          simpa using hhit
        rw [if_pos (by simp [this])]
      case isFalse hmiss =>
        rw [ih tx ty (i + 1) asts score (by omega)]
        have : (fun a => decide ((a.x - tx) * (a.x - tx) + (a.y - ty) * (a.y - ty)
            < ((a.radius : Int) + 4) * ((a.radius : Int) + 4))) asts[i] = false := by
          simpa using hmiss
        simp only [this, Bool.false_or]
    case isFalse h =>
      rw [List.drop_eq_nil_of_le (by omega)]
      simp

/-! ### First-hit characterization of the bullet-asteroid scan -/

theorem findHitGo_some_iff :
    ∀ (fuel : Nat) (bx b_y : Int) (asts : List Asteroid) (j r : Nat),
      asts.length - j ≤ fuel →
      (findHitGo bx b_y asts fuel j = some r ↔
        j ≤ r ∧ ∃ hr : r < asts.length,
          ((bx - asts[r].x) * (bx - asts[r].x) + (b_y - asts[r].y) * (b_y - asts[r].y)
            < ((asts[r].radius : Int) + 2) * ((asts[r].radius : Int) + 2)) ∧
          ∀ (k : Nat) (hk : k < asts.length), j ≤ k → k < r →
            ¬((bx - asts[k].x) * (bx - asts[k].x) + (b_y - asts[k].y) * (b_y - asts[k].y)
              < ((asts[k].radius : Int) + 2) * ((asts[k].radius : Int) + 2))) := by
  intro fuel
  induction fuel with
  | zero =>
    intro bx b_y asts j r hfuel
    simp only [findHitGo]
    constructor
    · intro hcontra; exact absurd hcontra (by simp)
    · rintro ⟨hjr, hr, -, -⟩; omega
  | succ n ih =>
    intro bx b_y asts j r hfuel
    simp only [findHitGo]
    split
    case isTrue h =>
      split
      case isTrue hhit =>
        simp only [List.get_eq_getElem] at hhit
        constructor
        · intro hsome
          have hjr : j = r := by simpa using hsome
          subst hjr
          exact ⟨le_refl _, h, hhit, fun k hk hjk hkj => by omega⟩
        · rintro ⟨hjr, hr, hhitr, hmin⟩
          have : r = j := by
            by_contra hne
            exact hmin j h (le_refl _) (by omega) hhit
          rw [this]
      case isFalse hmiss =>
        simp only [List.get_eq_getElem] at hmiss
        rw [ih bx b_y asts (j + 1) r (by omega)]
        constructor
        · rintro ⟨hjr, hr, hhitr, hmin⟩
          refine ⟨by omega, hr, hhitr, fun k hk hjk hkr => ?_⟩
          by_cases hkj : k = j
          · subst hkj; exact hmiss
          · exact hmin k hk (by omega) hkr
        · rintro ⟨hjr, hr, hhitr, hmin⟩
          have hne : r ≠ j := by
            intro hrj; subst hrj; exact hmiss hhitr
          refine ⟨by omega, hr, hhitr, fun k hk hjk hkr => hmin k hk (by omega) hkr⟩
    case isFalse h =>
      constructor
      · intro hcontra; exact absurd hcontra (by simp)
      · rintro ⟨hjr, hr, -, -⟩; omega

/-! ### Tick-level score/high-score lemmas -/

theorem phase_score_high (bullets0 : List (Int × Int)) (asts0 : List Asteroid)
    (score0 hs0 : Nat) (tx ty : Int) :
    score0 ≤ (bulletCollisions ⟨bullets0, asts0, score0, hs0, []⟩).score ∧
    (bulletCollisions ⟨bullets0, asts0, score0, hs0, []⟩).high_score =
      (if (bulletCollisions ⟨bullets0, asts0, score0, hs0, []⟩).score ≤ max hs0 score0
        then hs0 else (bulletCollisions ⟨bullets0, asts0, score0, hs0, []⟩).score) ∧
    (bulletCollisions ⟨bullets0, asts0, score0, hs0, []⟩).saves =
      List.range' (max hs0 score0 + 1)
        ((bulletCollisions ⟨bullets0, asts0, score0, hs0, []⟩).score - max hs0 score0) ∧
    ((asteroidPlayer tx ty (bulletCollisions ⟨bullets0, asts0, score0, hs0, []⟩).asteroids
        (bulletCollisions ⟨bullets0, asts0, score0, hs0, []⟩).score).2 =
      (bulletCollisions ⟨bullets0, asts0, score0, hs0, []⟩).score ∨
      (asteroidPlayer tx ty (bulletCollisions ⟨bullets0, asts0, score0, hs0, []⟩).asteroids
        (bulletCollisions ⟨bullets0, asts0, score0, hs0, []⟩).score).2 = 0) := by
  obtain ⟨h1, h2, h3⟩ :=
    bulletCollisionsGo_score_high bullets0.length 0 ⟨bullets0, asts0, score0, hs0, []⟩
  dsimp only at h1 h2 h3
  simp only [bulletCollisions]
  refine ⟨h1, h2, by rw [h3, List.nil_append], ?_⟩
  rw [asteroidPlayer, asteroidPlayerGo_score _ tx ty 0 _ _ (by omega)]
  split
  · right; rfl
  · left; rfl

theorem activeTick_score_high (st : App) (input : InputState) (now : Nat) :
    ∃ sc : Nat, st.score ≤ sc ∧
      (activeTick st input now).1.high_score =
        (if sc ≤ max st.high_score st.score then st.high_score else sc) ∧
      (activeTick st input now).2 =
        List.range' (max st.high_score st.score + 1) (sc - max st.high_score st.score) ∧
      ((activeTick st input now).1.score = sc ∨ (activeTick st input now).1.score = 0) := by
  dsimp only [activeTick]
  obtain ⟨h1, h2, h3, h4⟩ := phase_score_high
    (moveBullets (if 0 < st.bullet_cooldown then (st.bullets, st.bullet_cooldown - 1)
      else (pushCap 16 st.bullets
        ((if input.button_right && !(input.button_left && input.button_right) then
            min ((if input.button_left && !(input.button_left && input.button_right) then
              max (st.triangle_x - 3) 8 else st.triangle_x) + 3) 120
          else (if input.button_left && !(input.button_left && input.button_right) then
            max (st.triangle_x - 3) 8 else st.triangle_x)), st.triangle_y - 4), 10)).1)
    (moveAsteroids (if 0 < st.asteroid_cooldown then (st.asteroids, st.asteroid_cooldown - 1)
      else (pushCap 8 st.asteroids (spawnAsteroid ((st.frame_count + 1) % U32MOD)), 40)).1)
    st.score st.high_score
    (if input.button_right && !(input.button_left && input.button_right) then
        min ((if input.button_left && !(input.button_left && input.button_right) then
          max (st.triangle_x - 3) 8 else st.triangle_x) + 3) 120
      else (if input.button_left && !(input.button_left && input.button_right) then
        max (st.triangle_x - 3) 8 else st.triangle_x))
    st.triangle_y
  exact ⟨_, h1, h2, h3, h4⟩

theorem activeTick_is_sleeping (st : App) (input : InputState) (now : Nat) :
    (activeTick st input now).1.is_sleeping = st.is_sleeping := rfl

theorem activeTick_held (st : App) (input : InputState) (now : Nat) :
    (activeTick st input now).1.both_buttons_held_start = st.both_buttons_held_start := rfl

/-! ### Claim theorems -/

/-- Claim C1: in every reachable state the live bullet pool has at most 16
entries and the live hazard pool at most 8; a push on a full pool returns the
pool unchanged (the failed insertion is silently dropped). -/
theorem claim1_pool_bounds :
    (∀ st : App, Reachable st → st.bullets.length ≤ 16 ∧ st.asteroids.length ≤ 8) ∧
    (∀ (xs : List (Int × Int)) (b : Int × Int), xs.length = 16 → pushCap 16 xs b = xs) ∧
    (∀ (xs : List Asteroid) (a : Asteroid), xs.length = 8 → pushCap 8 xs a = xs) := by
  refine ⟨?_, ?_, ?_⟩
  · intro st h
    induction h with
    | init timeout t0 hs => exact ⟨by simp [initApp], by simp [initApp]⟩
    | step st input now hst ih => exact main_loop_pools st input now ih.1 ih.2
  · intro xs b h
    exact pushCap_full _ _ _ h
  · intro xs a h
    exact pushCap_full _ _ _ h

/-- Witness for C1: the pool bounds hold after one concrete tick from a setup
state, and a push on a concrete full bullet pool is a no-op. -/
theorem claim1_pool_bounds_sample :
    ((main_loop (initApp 0 0 0) ⟨false, false⟩ 0).1.bullets.length ≤ 16 ∧
      (main_loop (initApp 0 0 0) ⟨false, false⟩ 0).1.asteroids.length ≤ 8) ∧
    pushCap 16 (List.replicate 16 ((0 : Int), (0 : Int))) (1, 1) =
      List.replicate 16 ((0 : Int), (0 : Int)) := by
  constructor
  · exact claim1_pool_bounds.1 _ (Reachable.step _ ⟨false, false⟩ 0 (Reachable.init 0 0 0))
  · exact claim1_pool_bounds.2.1 _ _ (by decide)

/-- Claim C9: a tick processed while sleeping with no button pressed leaves
the whole state unchanged and performs no persistence call. -/
theorem claim9_sleeping_inert (st : App) (input : InputState) (now : Nat)
    (hs : st.is_sleeping = true) (hl : input.button_left = false)
    (hr : input.button_right = false) :
    main_loop st input now = (st, []) := by
  simp [main_loop, hs, hl, hr]

/-- Witness for C9: a concrete sleeping state with no input is unchanged. -/
theorem claim9_sleeping_inert_sample :
    main_loop { initApp 10 0 7 with is_sleeping := true } ⟨false, false⟩ 123456 =
      ({ initApp 10 0 7 with is_sleeping := true }, []) :=
  claim9_sleeping_inert _ _ _ rfl rfl rfl

/-- Counterexample for C2 as stated: with a 10 s timeout, last input at 0 ms
and the left button pressed on the tick at 10001 ms, the awake application
still transitions to Sleeping even though a button is pressed that tick. -/
theorem claim2_cex :
    (initApp 10 0 0).is_sleeping = false ∧
    (⟨true, false⟩ : InputState).button_left = true ∧
    (main_loop (initApp 10 0 0) ⟨true, false⟩ 10001).1.is_sleeping = true := by
  decide

/-- Claim C2 (amended): from the Awake state the transition to Sleeping
happens exactly when the configured timeout is non-zero and the idle duration
exceeds it, regardless of the buttons sampled that tick; in particular with
timeout 0 the Awake state is never left. -/
theorem claim2_sleep_iff (st : App) (input : InputState) (now : Nat)
    (h : st.is_sleeping = false) :
    (main_loop st input now).1.is_sleeping = true ↔
      0 < st.sleep_timeout ∧ st.sleep_timeout < now - st.last_input_time := by
  simp only [main_loop, h, Bool.false_and, Bool.not_false, Bool.true_and, if_false]
  by_cases h1 : 0 < st.sleep_timeout ∧ st.sleep_timeout < now - st.last_input_time
  · rw [if_neg (by simp), if_pos (by simp [h1.1, h1.2])]
    simpa using h1
  · rw [if_neg (by simp)]
    rw [if_neg (by
      rcases Decidable.not_and_iff_or_not.mp h1 with h2 | h2 <;> simp [h2])]
    rw [if_neg (by simp [h])]
    split
    · split
      · simpa using h1
      · rw [activeTick_is_sleeping]
        simp only [h]
        simpa using h1
    · rw [activeTick_is_sleeping]
      simp only [h]
      simpa using h1

/-- Witness for C2 (amended): at a concrete awake state below the timeout the
transition does not happen. -/
theorem claim2_sleep_iff_sample :
    ¬(0 < (initApp 10 0 0).sleep_timeout ∧
        (initApp 10 0 0).sleep_timeout < 500 - (initApp 10 0 0).last_input_time) ∧
    ¬(main_loop (initApp 10 0 0) ⟨false, false⟩ 500).1.is_sleeping = true := by
  have h := claim2_sleep_iff (initApp 10 0 0) ⟨false, false⟩ 500 rfl
  refine ⟨by decide, ?_⟩
  rw [h]
  decide

/-- Counterexample for C7 as stated: frame counter 10 yields x = 85 and
radius 4, not x = 23 and radius 3. -/
theorem claim7_cex :
    (spawnAsteroid 10).x = 85 ∧ (spawnAsteroid 10).radius = 4 ∧
    ¬((spawnAsteroid 10).x = 23 ∧ (spawnAsteroid 10).radius = 3) := by
  decide

/-- Claim C7 (amended): for frame counter value 10 the fixed spawn formulas
yield a hazard with x-coordinate 85 and radius 4. -/
theorem claim7_spawn_at_10 :
    (spawnAsteroid 10).x = 85 ∧ (spawnAsteroid 10).radius = 4 := by
  decide

set_option maxRecDepth 100000 in
/-- Claim C10: at startup the bullet cooldown is 0 and the hazard cooldown is
30, so the first active tick already spawns a bullet while the first hazard
spawn happens on the 31st active tick, after which the cooldown is the
steady-state 40 (and 30 < 40). -/
theorem claim10_startup_cooldowns :
    (∀ timeout t0 hs : Nat, (initApp timeout t0 hs).bullet_cooldown = 0 ∧
      (initApp timeout t0 hs).asteroid_cooldown = 30) ∧
    (runIdleTicks (initApp 0 0 0) 1).bullets.length = 1 ∧
    (∀ k : Nat, k < 31 → (runIdleTicks (initApp 0 0 0) k).asteroids = []) ∧
    (runIdleTicks (initApp 0 0 0) 31).asteroids.length = 1 ∧
    (runIdleTicks (initApp 0 0 0) 31).asteroid_cooldown = 40 ∧
    30 < 40 := by
  refine ⟨fun timeout t0 hs => ⟨rfl, rfl⟩, ?_, ?_, ?_, ?_, ?_⟩ <;> decide

set_option maxRecDepth 100000 in
/-- Witness for C10: the hazard pool is still empty after the 5th idle tick. -/
theorem claim10_startup_cooldowns_sample :
    (runIdleTicks (initApp 0 0 0) 5).asteroids = [] :=
  claim10_startup_cooldowns.2.2.1 5 (by decide)

/-- Claim C4: on every tick the high score either is cleared by the
15-second both-buttons reset gesture (together with a single `save(0)` call),
or is non-decreasing; in the latter case it rises exactly when the
bullet-phase score passes the prior maximum of high score and score, it then
equals that score, and `save` is called exactly once per unit increase with
exactly the successive new high-score values. -/
theorem claim4_high_score_monotone (st : App) (input : InputState) (now : Nat) :
    ((input.button_left && input.button_right) = true ∧
      (∃ s, st.both_buttons_held_start = some s ∧ 15000 ≤ now - s) ∧
      (main_loop st input now).1.high_score = 0 ∧ (main_loop st input now).2 = [0]) ∨
    (∃ sc : Nat, st.score ≤ sc ∧
      st.high_score ≤ (main_loop st input now).1.high_score ∧
      (main_loop st input now).1.high_score =
        (if sc ≤ max st.high_score st.score then st.high_score else sc) ∧
      (main_loop st input now).2 =
        List.range' (max st.high_score st.score + 1) (sc - max st.high_score st.score) ∧
      ((main_loop st input now).1.score = sc ∨ (main_loop st input now).1.score = 0)) := by
  simp only [main_loop]
  split
  · right
    exact ⟨st.score, le_refl _, le_refl _, (if_pos (le_max_right _ _)).symm,
      by rw [Nat.sub_eq_zero_of_le (le_max_right _ _), List.range'_zero], Or.inl rfl⟩
  · split
    · right
      exact ⟨st.score, le_refl _, le_refl _, (if_pos (le_max_right _ _)).symm,
        by rw [Nat.sub_eq_zero_of_le (le_max_right _ _), List.range'_zero], Or.inl rfl⟩
    · split
      · right
        exact ⟨st.score, le_refl _, le_refl _, (if_pos (le_max_right _ _)).symm,
          by rw [Nat.sub_eq_zero_of_le (le_max_right _ _), List.range'_zero], Or.inl rfl⟩
      · split
        case isTrue hboth =>
          split
          case isTrue hfire =>
            left
            refine ⟨hboth, ?_, rfl, rfl⟩
            cases hopt : st.both_buttons_held_start with
            | none =>
              rw [hopt] at hfire
              simp only [Option.getD_none] at hfire
              omega
            | some s =>
              rw [hopt] at hfire
              simp only [Option.getD_some] at hfire
              exact ⟨s, rfl, hfire⟩
          case isFalse hfire =>
            right
            obtain ⟨sc, h1, h2, h3, h4⟩ := activeTick_score_high
              { st with both_buttons_held_start := some (st.both_buttons_held_start.getD now) }
              input now
            refine ⟨sc, h1, ?_, h2, h3, h4⟩
            rw [h2]
            dsimp only
            split
            · exact le_refl _
            case isFalse hgt => exact le_trans (le_max_left _ _) (le_of_lt (not_le.mp hgt))
        case isFalse hboth =>
          right
          obtain ⟨sc, h1, h2, h3, h4⟩ := activeTick_score_high
            { st with both_buttons_held_start := none } input now
          refine ⟨sc, h1, ?_, h2, h3, h4⟩
          rw [h2]
          dsimp only
          split
          · exact le_refl _
          case isFalse hgt => exact le_trans (le_max_left _ _) (le_of_lt (not_le.mp hgt))

/-- Claim C5: the asteroid-player collision pass returns score 0 exactly
when some hazard's squared distance to the marker is below `(radius + 4)^2`
(and the incoming score otherwise), and each colliding hazard is
swap-removed with the score reset to 0 at that step; the pass touches
nothing but the hazard pool and the current score. -/
theorem claim5_player_collision :
    (∀ (asts : List Asteroid) (tx ty : Int) (score : Nat),
      (asteroidPlayer tx ty asts score).2 =
        (if asts.any (fun a =>
              decide ((a.x - tx) * (a.x - tx) + (a.y - ty) * (a.y - ty)
                < ((a.radius : Int) + 4) * ((a.radius : Int) + 4)))
          then 0 else score)) ∧
    (∀ (fuel i : Nat) (asts : List Asteroid) (score : Nat) (tx ty : Int)
      (h : i < asts.length),
      ((asts.get ⟨i, h⟩).x - tx) * ((asts.get ⟨i, h⟩).x - tx)
        + ((asts.get ⟨i, h⟩).y - ty) * ((asts.get ⟨i, h⟩).y - ty)
        < (((asts.get ⟨i, h⟩).radius : Int) + 4) * (((asts.get ⟨i, h⟩).radius : Int) + 4) →
      asteroidPlayerGo tx ty (fuel + 1) i asts score =
        asteroidPlayerGo tx ty fuel i (swapRemove asts i) 0) := by
  constructor
  · intro asts tx ty score
    rw [asteroidPlayer, asteroidPlayerGo_score _ tx ty 0 _ _ (by omega), List.drop_zero]
  · intro fuel i asts score tx ty h hhit
    simp only [asteroidPlayerGo, dif_pos h, if_pos hhit]

/-- Witness for C5: a hazard at (1,1) with radius 3 collides with the marker
at the origin, zeroing a score of 5 and being removed. -/
theorem claim5_player_collision_sample :
    (asteroidPlayer 0 0 [⟨1, 1, 3, 0⟩] 5).2 = 0 ∧
    asteroidPlayerGo 0 0 1 0 [⟨1, 1, 3, 0⟩] 5 =
      asteroidPlayerGo 0 0 0 0 (swapRemove [⟨1, 1, 3, 0⟩] 0) 0 := by
  constructor
  · rw [claim5_player_collision.1 [⟨1, 1, 3, 0⟩] 0 0 5]
    decide
  · exact claim5_player_collision.2 0 0 [⟨1, 1, 3, 0⟩] 5 0 0 (by decide) (by decide)

/-- Claim C3: the bullet-asteroid scan declares a collision exactly when the
squared distance between bullet and hazard center is strictly below
`(radius + 2)^2`, returning the first (lowest-index) such hazard; and on a
hit the loop removes that hazard, removes the bullet, bumps the score by
exactly 1 (updating high score and persistence accordingly) and continues at
the same index, so the removed bullet can hit no further hazard that tick. -/
theorem claim3_bullet_hazard :
    (∀ (bx b_y : Int) (asts : List Asteroid) (j : Nat),
      findHitAsteroid bx b_y asts = some j ↔
        ∃ hj : j < asts.length,
          ((bx - asts[j].x) * (bx - asts[j].x) + (b_y - asts[j].y) * (b_y - asts[j].y)
            < ((asts[j].radius : Int) + 2) * ((asts[j].radius : Int) + 2)) ∧
          ∀ (k : Nat) (hk : k < asts.length), k < j →
            ¬((bx - asts[k].x) * (bx - asts[k].x) + (b_y - asts[k].y) * (b_y - asts[k].y)
              < ((asts[k].radius : Int) + 2) * ((asts[k].radius : Int) + 2))) ∧
    (∀ (fuel bi : Nat) (cs : CollideState) (h : bi < cs.bullets.length) (j : Nat),
      findHitAsteroid (cs.bullets.get ⟨bi, h⟩).1 (cs.bullets.get ⟨bi, h⟩).2 cs.asteroids
          = some j →
      bulletCollisionsGo (fuel + 1) bi cs =
        bulletCollisionsGo fuel bi
          ⟨swapRemove cs.bullets bi, swapRemove cs.asteroids j, cs.score + 1,
            (if cs.high_score < cs.score + 1 then cs.score + 1 else cs.high_score),
            (if cs.high_score < cs.score + 1 then cs.saves ++ [cs.score + 1]
              else cs.saves)⟩) := by
  constructor
  · intro bx b_y asts j
    rw [findHitAsteroid, findHitGo_some_iff _ bx b_y asts 0 j (by omega)]
    constructor
    · rintro ⟨-, hj, hhit, hmin⟩
      exact ⟨hj, hhit, fun k hk hkj => hmin k hk (Nat.zero_le k) hkj⟩
    · rintro ⟨hj, hhit, hmin⟩
      exact ⟨Nat.zero_le j, hj, hhit, fun k hk _ hkj => hmin k hk hkj⟩
  · intro fuel bi cs h j hfind
    simp only [bulletCollisionsGo, dif_pos h, hfind]

/-- Witness for C3: a bullet at the origin misses a far hazard and hits the
near one at index 1, which is removed together with the bullet while the
score goes from 4 to 5 and 5 is persisted as the new high score. -/
theorem claim3_bullet_hazard_sample :
    bulletCollisionsGo 1 0 ⟨[(0, 0)], [⟨100, 0, 3, 0⟩, ⟨1, 1, 3, 0⟩], 4, 4, []⟩ =
      bulletCollisionsGo 0 0 ⟨swapRemove [((0 : Int), (0 : Int))] 0,
        swapRemove [⟨100, 0, 3, 0⟩, ⟨1, 1, 3, 0⟩] 1, 4 + 1,
        (if 4 < 4 + 1 then 4 + 1 else 4), (if 4 < 4 + 1 then [] ++ [4 + 1] else [])⟩ ∧
    findHitAsteroid 0 0 [⟨100, 0, 3, 0⟩, ⟨1, 1, 3, 0⟩] = some 1 := by
  constructor
  · exact claim3_bullet_hazard.2 0 0
      ⟨[(0, 0)], [⟨100, 0, 3, 0⟩, ⟨1, 1, 3, 0⟩], 4, 4, []⟩ (by decide) 1 (by decide)
  · refine (claim3_bullet_hazard.1 0 0 [⟨100, 0, 3, 0⟩, ⟨1, 1, 3, 0⟩] 1).mpr
      ⟨by decide, by decide, ?_⟩
    intro k hk hk1
    have hk0 : k = 0 := by omega
    subst hk0
    simp only [List.getElem_cons_zero]
    decide

/-- Claim C6: with the frame counter reduced modulo 2^32 as the code stores
it, a spawned hazard's x-coordinate, radius and shape seed are given by the
fixed wrapping formulas of the spec, the radius always lies in [3,5], and
spawning is a pure function of the frame counter (identical counter
histories give bit-identical spawns). -/
theorem claim6_spawn_deterministic (f : Nat) :
    (spawnAsteroid (f % U32MOD)).x = Int.ofNat ((f * 17 + 13) % U32MOD % 108) + 10 ∧
    (spawnAsteroid (f % U32MOD)).radius = (f * 7) % U32MOD % 3 + 3 ∧
    (spawnAsteroid (f % U32MOD)).seed = (f * 1103515245 + 12345) % U32MOD ∧
    3 ≤ (spawnAsteroid (f % U32MOD)).radius ∧ (spawnAsteroid (f % U32MOD)).radius ≤ 5 ∧
    ∀ g : Nat, f % U32MOD = g % U32MOD →
      spawnAsteroid (f % U32MOD) = spawnAsteroid (g % U32MOD) := by
  have hx : (f % U32MOD * 17 + 13) % U32MOD = (f * 17 + 13) % U32MOD :=
    ((Nat.mod_modEq f U32MOD).mul_right 17).add_right 13
  have hr : (f % U32MOD * 7) % U32MOD = (f * 7) % U32MOD :=
    (Nat.mod_modEq f U32MOD).mul_right 7
  have hsd : (f % U32MOD * 1103515245 + 12345) % U32MOD
      = (f * 1103515245 + 12345) % U32MOD :=
    ((Nat.mod_modEq f U32MOD).mul_right 1103515245).add_right 12345
  refine ⟨?_, ?_, ?_, ?_, ?_, ?_⟩
  · show Int.ofNat ((f % U32MOD * 17 + 13) % U32MOD % 108) + 10 = _
    rw [hx]
  · show (f % U32MOD * 7) % U32MOD % 3 + 3 = _
    rw [hr]
  · exact hsd
  · show 3 ≤ (f % U32MOD * 7) % U32MOD % 3 + 3
    omega
  · show (f % U32MOD * 7) % U32MOD % 3 + 3 ≤ 5
    omega
  · intro g hfg
    rw [hfg]

/-- Witness for C6: the formulas at frame counter 10, and determinism between
counter values 10 and 2^32 + 10, which coincide modulo 2^32. -/
theorem claim6_spawn_deterministic_sample :
    (spawnAsteroid (10 % U32MOD)).x = Int.ofNat ((10 * 17 + 13) % U32MOD % 108) + 10 ∧
    spawnAsteroid (10 % U32MOD) = spawnAsteroid ((U32MOD + 10) % U32MOD) := by
  refine ⟨(claim6_spawn_deterministic 10).1, ?_⟩
  exact (claim6_spawn_deterministic 10).2.2.2.2.2 (U32MOD + 10) (by decide)

/-- Counterexample for C8 as stated: on a tick whose idle time exceeds the
sleep timeout the loop enters sleep mode and returns before the gesture
code, so the hold-start record survives even though the right button is not
pressed on that tick. -/
theorem claim8_cex :
    (⟨true, false⟩ : InputState).button_right = false ∧
    (main_loop { initApp 10 0 0 with both_buttons_held_start := some 0 }
        ⟨true, false⟩ 10001).1.both_buttons_held_start = some 0 := by
  decide

/-- Claim C8 (amended): on every tick that reaches the gesture code (awake
and not crossing the sleep timeout), a 15-second-old hold of both buttons
clears the high score to 0, persists exactly `save(0)`, clears the
hold-start, and leaves every other field (entities, cooldowns, frame counter,
score, positions) untouched; any tick reaching the gesture code with either
button up clears the hold-start; and a fresh both-buttons press records the
current instant as the new hold-start, restarting the 15-second timer. -/
theorem claim8_reset_gesture :
    (∀ (st : App) (input : InputState) (now s : Nat),
      st.is_sleeping = false →
      ¬(0 < st.sleep_timeout ∧ st.sleep_timeout < now - st.last_input_time) →
      input.button_left = true → input.button_right = true →
      st.both_buttons_held_start = some s → 15000 ≤ now - s →
      main_loop st input now =
        ({ st with high_score := 0, both_buttons_held_start := none }, [0])) ∧
    (∀ (st : App) (input : InputState) (now : Nat),
      st.is_sleeping = false →
      ¬(0 < st.sleep_timeout ∧ st.sleep_timeout < now - st.last_input_time) →
      (input.button_left = false ∨ input.button_right = false) →
      (main_loop st input now).1.both_buttons_held_start = none) ∧
    (∀ (st : App) (input : InputState) (now : Nat),
      st.is_sleeping = false →
      ¬(0 < st.sleep_timeout ∧ st.sleep_timeout < now - st.last_input_time) →
      input.button_left = true → input.button_right = true →
      st.both_buttons_held_start = none →
      (main_loop st input now).1.both_buttons_held_start = some now) := by
  refine ⟨?_, ?_, ?_⟩
  · intro st input now s hsleep hto hl hr hheld h15
    have hcond : (decide (0 < st.sleep_timeout)
        && decide (st.sleep_timeout < now - st.last_input_time)) = false := by
      rw [← Bool.decide_and]
      exact decide_eq_false hto
    simp only [main_loop, hsleep, hl, hr, hheld, Bool.false_and, Bool.not_false,
      Bool.true_and, hcond, Bool.and_self, if_false, if_true, Option.getD_some,
      Bool.and_false, Bool.false_eq_true]
    rw [if_pos h15]
  · intro st input now hsleep hto hrel
    have hcond : (decide (0 < st.sleep_timeout)
        && decide (st.sleep_timeout < now - st.last_input_time)) = false := by
      rw [← Bool.decide_and]
      exact decide_eq_false hto
    have hboth : (input.button_left && input.button_right) = false := by
      rcases hrel with h | h <;> simp [h]
    simp only [main_loop, hsleep, hboth, Bool.false_and, Bool.not_false,
      Bool.true_and, hcond, if_false, Bool.false_eq_true]
    rw [activeTick_held]
  · intro st input now hsleep hto hl hr hheld
    have hcond : (decide (0 < st.sleep_timeout)
        && decide (st.sleep_timeout < now - st.last_input_time)) = false := by
      rw [← Bool.decide_and]
      exact decide_eq_false hto
    simp only [main_loop, hsleep, hl, hr, hheld, Bool.false_and, Bool.not_false,
      Bool.true_and, hcond, Bool.and_self, if_false, if_true, Option.getD_none,
      Bool.false_eq_true]
    rw [if_neg (by omega), activeTick_held]

/-- Witness for C8 (amended): concrete instances of the three conjuncts —
a 15-second hold fires the reset, a tick with the right button up clears the
hold-start, and a fresh both-buttons press records the current instant. -/
theorem claim8_reset_gesture_sample :
    main_loop { initApp 0 0 5 with both_buttons_held_start := some 0 }
        ⟨true, true⟩ 15000 =
      ({ { initApp 0 0 5 with both_buttons_held_start := some 0 } with
          high_score := 0, both_buttons_held_start := none }, [0]) ∧
    (main_loop (initApp 0 0 0) ⟨true, false⟩ 5).1.both_buttons_held_start = none ∧
    (main_loop (initApp 0 0 0) ⟨true, true⟩ 7).1.both_buttons_held_start = some 7 := by
  refine ⟨?_, ?_, ?_⟩
  · exact claim8_reset_gesture.1 _ _ 15000 0 rfl (by decide) rfl rfl rfl (by decide)
  · exact claim8_reset_gesture.2.1 _ _ 5 rfl (by decide) (Or.inr rfl)
  · exact claim8_reset_gesture.2.2 _ _ 7 rfl (by decide) rfl rfl rfl

end SpaceShooter
